import Mathlib

/-
Shallow embedding of the chat-service backend (websocket_server.cpp and
database_manager.cpp, namespace caffis) used to check the natural-language
specification's claims against the code.

Conventions:
* JSON envelopes received from clients are modelled as flat association
  lists of string fields; `jget` models `ptree.get<std::string>(key, "")`.
* Outbound envelopes are modelled structurally (one constructor per
  `"type"` tag the server can emit, fields as in the code).
* Network and lock activity of `broadcast_to_room` is modelled as an event
  trace (`NetEvent`), so that lock discipline and delivery sets are
  observable.
* Database query results that come from outside the process (libpqxx) are
  passed in as explicit outcome values (`QueryOutcome`, oracle fields of
  `DbEnv`); the SQL-backed tables owned by the chat database are modelled
  as in-memory lists (`StoreState`) and the prepared statements as pure
  state transformers, following the SQL text in database_manager.cpp.
-/

namespace Caffis

/-- In-memory per-connection state, mirroring `struct ClientSession`
(websocket_server.cpp lines 56-68).  The connection handle is reduced to
its observable `is_open()` flag. -/
structure ClientSession where
  user_id : String
  username : String
  display_name : String
  email : String
  room_id : String
  is_authenticated : Bool
  ws_open : Bool
  deriving Repr, DecidableEq

/-- Outbound wire envelopes the server can write, one constructor per
`"type"` tag, fields as written by websocket_server.cpp.  `user_joined`
is part of the declared wire protocol (spec section 6) and is included so
its absence from the code's output can be stated; no handler constructs
it. -/
inductive OutEnvelope where
  | auth_error (err : String)
  | auth_success (user_id username display_name : String)
  | error (err : String)
  | new_message (message_id room_id sender_id sender_name content : String)
      (timestamp : Nat) (message_type : String)
  | room_joined (room_id msg : String)
  | rooms_list (rooms : List (String × String × String))
  | user_joined (room_id user_id username display_name : String)
  deriving Repr, DecidableEq

/-- Observable actions of `broadcast_to_room`: taking/releasing the
registry-wide `sessions_mutex` and writing a payload to a session's
websocket. -/
inductive NetEvent where
  | lockAcquire
  | lockRelease
  | wsWrite (sid : String) (recipient : ClientSession) (payload : OutEnvelope)
  deriving Repr, DecidableEq

/-- The global `active_sessions` map, modelled as an association list in
iteration order (session id, session). -/
abbrev Registry := List (String × ClientSession)

/-- The write loop body of `broadcast_to_room` (websocket_server.cpp lines
374-391): for each session in the registry, if it is in the room and
authenticated and its user id differs from `sender_id` and its socket is
open, a write is attempted. -/
def broadcastWrites (reg : Registry) (room_id : String) (payload : OutEnvelope)
    (sender_id : String) : List NetEvent :=
  reg.filterMap (fun kv =>
    if kv.snd.room_id == room_id && kv.snd.is_authenticated then
      if kv.snd.user_id != sender_id then
        if kv.snd.ws_open then some (NetEvent.wsWrite kv.fst kv.snd payload)
        else none
      else none
    else none)

/-- `broadcast_to_room(room_id, message, sender_id)` (websocket_server.cpp
lines 366-394): the function acquires `sessions_mutex` on entry
(`std::lock_guard` at line 367), performs every recipient write inside the
guarded scope, and releases the mutex only when the scope ends. -/
def broadcast_to_room (reg : Registry) (room_id : String) (payload : OutEnvelope)
    (sender_id : String) : List NetEvent :=
  NetEvent.lockAcquire :: (broadcastWrites reg room_id payload sender_id
    ++ [NetEvent.lockRelease])

/-- Extract from a trace the write events that happen while the lock is
held (lock depth tracked by the accumulator). -/
def writesWhileLocked : List NetEvent → Nat → List NetEvent
  | [], _ => []
  | NetEvent.lockAcquire :: rest, d => writesWhileLocked rest (d + 1)
  | NetEvent.lockRelease :: rest, d => writesWhileLocked rest (d - 1)
  | e :: rest, d =>
      (if 0 < d then [e] else []) ++ writesWhileLocked rest d

/-- Field lookup on an inbound JSON envelope, modelling
`message_json.get<std::string>(key, "")`. -/
abbrev Inbound := List (String × String)

/-- Lookup with default empty string, as boost ptree `get(key, "")`. -/
def jget (m : Inbound) (key : String) : String :=
  match m.find? (fun kv => kv.fst == key) with
  | some kv => kv.snd
  | none => ""

/-- A row of the `chat_rooms` table as touched by this code
(`id, name, type, created_by`, plus the `is_active` flag consulted by
`get_user_rooms`; inserts leave it at its schema default `true`). -/
structure RoomRow where
  id : String
  name : String
  rtype : String
  created_by : String
  is_active : Bool
  deriving Repr, DecidableEq

/-- A row of the `room_participants` table as touched by this code. -/
structure ParticipantRow where
  room_id : String
  user_id : String
  role : String
  is_active : Bool
  deriving Repr, DecidableEq

/-- The chat database state owned by DatabaseManager, reduced to the
tables the verified operations read and write.  `chat_users` rows are
(id, username) pairs, the columns `ensure_user_in_default_room` selects. -/
structure StoreState where
  chat_rooms : List RoomRow
  room_participants : List ParticipantRow
  chat_users : List (String × String)
  deriving Repr, DecidableEq

/-- Outcome of a libpqxx query as seen by the calling code: a row set, or
a thrown exception caught by the surrounding `try/catch`. -/
inductive QueryOutcome (α : Type) where
  | ok (rows : List α)
  | exn (msg : String)
  deriving Repr, DecidableEq

/-- `DatabaseManager::can_user_join_room` (database_manager.cpp lines
269-287).  The argument is the outcome of the prepared
`SELECT COUNT(*) FROM room_participants ...` query.  The code reads the
count when a row is present but ignores it ("Always allow for testing"),
returns `true` when the result is empty (falls through to the final
`return true`), and returns `true` from the final line when the query
throws ("Allow by default for testing"). -/
def can_user_join_room (res : QueryOutcome Nat) : Bool :=
  match res with
  | .ok rows =>
    match rows with
    | _count :: _ => true
    | [] => true
  | .exn _ => true

/-- `DatabaseManager::add_participant` (database_manager.cpp lines
251-266): `INSERT ... ON CONFLICT (room_id, user_id) DO UPDATE SET
is_active = true, role = EXCLUDED.role`. -/
def add_participant (st : StoreState) (room_id user_id role : String) : StoreState :=
  if st.room_participants.any (fun p => p.room_id == room_id && p.user_id == user_id) then
    { st with room_participants := st.room_participants.map (fun p =>
        if p.room_id == room_id && p.user_id == user_id then
          { p with is_active := true, role := role }
        else p) }
  else
    { st with room_participants := st.room_participants ++ [⟨room_id, user_id, role, true⟩] }

/-- The fixed default room id used by `ensure_user_in_default_room`
(database_manager.cpp line 441). -/
def default_room_id : String := "550e8400-e29b-41d4-a716-446655440000"

/-- First statement block of `ensure_user_in_default_room`
(database_manager.cpp lines 446-461): create the default room
("General Chat", type "group", created by the authenticating user) when
no row with the default id exists. -/
def ensureRoomStage (st : StoreState) (user_id : String) : StoreState :=
  if st.chat_rooms.any (fun r => r.id == default_room_id) then st
  else { st with chat_rooms :=
      st.chat_rooms ++
        [⟨default_room_id, "General Chat", "group", user_id, true⟩] }

/-- The participant check-then-insert pattern used twice by
`ensure_user_in_default_room` (database_manager.cpp lines 464-476 for the
authenticating user, 487-498 inside the loop): insert a
`(default room, uid, member, is_active = true)` row unless a participant
row for (default room, uid) — active or not — already exists; an existing
row is left untouched. -/
def addDefaultParticipant (st : StoreState) (uid : String) : StoreState :=
  if st.room_participants.any (fun p =>
      p.room_id == default_room_id && p.user_id == uid) then st
  else { st with room_participants :=
      st.room_participants ++ [⟨default_room_id, uid, "member", true⟩] }

/-- Loop step of the "add all existing users" loop (database_manager.cpp
lines 482-499), applied to one `chat_users` row. -/
def ensureOtherStep (acc : StoreState) (u : String × String) : StoreState :=
  addDefaultParticipant acc u.fst

/-- `DatabaseManager::ensure_user_in_default_room` (database_manager.cpp
lines 439-510), as one transaction: create the default room if absent,
insert the authenticating user as an active member unless a participant
row (of any activity) already exists, then do the same for every other
`chat_users` row (`SELECT id, username FROM chat_users WHERE id != $1`).
The C++ function returns `true` on commit; the exception path is external
to this pure model. -/
def ensure_user_in_default_room (st : StoreState) (user_id _username : String) :
    StoreState :=
  ((addDefaultParticipant (ensureRoomStage st user_id) user_id).chat_users.filter
      (fun u => u.fst != user_id)).foldl ensureOtherStep
    (addDefaultParticipant (ensureRoomStage st user_id) user_id)

/-- `DatabaseManager::get_user_rooms` (database_manager.cpp lines
290-319, prepared statement lines 130-136): rooms joined to an active
participant row for the user, both sides `is_active`. -/
def get_user_rooms (st : StoreState) (user_id : String) : List RoomRow :=
  st.chat_rooms.filter (fun r =>
    r.is_active && st.room_participants.any (fun p =>
      p.room_id == r.id && p.user_id == user_id && p.is_active))

/-- A message row as returned by the prepared `get_messages` statement
(database_manager.cpp lines 102-110): the SQL orders by
`created_at DESC LIMIT $2`; `created_at` is kept here as the sort key in
milliseconds.  (The C++ `Message.timestamp` field is never populated from
the row, so replayed envelopes carry the default epoch timestamp 0.) -/
structure StoredMsg where
  id : String
  room_id : String
  sender_id : String
  content : String
  created_at : Nat
  deriving Repr, DecidableEq

/-- External outcomes a `handle_message` call observes: whether
`db_manager` is non-null, the result of `verify_jwt_token`
(user id, username on success), the result of
`get_user_details_from_main_db` as (firstName, lastName, email) when
found, the row outcome of the `can_user_join_room` query, the row list
returned by `get_room_messages(room_id, 20)`, the `get_user` lookup
(username, display name) used for history sender names, and the wall
clock in milliseconds. -/
structure DbEnv where
  db_present : Bool
  verify_result : Option (String × String)
  user_details_name : Option (String × String × String)
  join_query : QueryOutcome Nat
  history : List StoredMsg
  user_names : String → String × String
  millis : Nat

/-- Result of one `handle_message` dispatch: envelopes written to the
session's own socket in order, the broadcast event trace, the session and
store states after the call, and the messages handed to `save_message`. -/
structure HandleResult where
  self_writes : List OutEnvelope
  events : List NetEvent
  session : ClientSession
  store : StoreState
  saved : List StoredMsg
  deriving Repr

/-- One replayed history envelope (websocket_server.cpp lines 611-634):
sender name is the display name unless empty, then the username; the
timestamp written is `msg.timestamp`, which `get_messages` leaves at the
default epoch value, i.e. 0 ms. -/
def history_envelope (env : DbEnv) (m : StoredMsg) : OutEnvelope :=
  let names := env.user_names m.sender_id
  OutEnvelope.new_message m.id m.room_id m.sender_id
    (if names.snd == "" then names.fst else names.snd) m.content 0 "text"

/-- The `"message"` branch of `handle_message` (websocket_server.cpp
lines 493-554): require authentication, then non-empty `roomId` and
`content` envelope fields (the session's own `room_id` is not consulted);
build the `new_message` envelope and broadcast it with an empty exclusion
id (line 533: `broadcast_to_room(roomId, msg_oss.str(), "")`, "including
sender for confirmation"); if the database manager is present, hand the
message to `save_message`. -/
def handle_chat_message (env : DbEnv) (st : StoreState) (reg : Registry)
    (session : ClientSession) (msg : Inbound) : HandleResult :=
  if !session.is_authenticated then
    ⟨[.error "Authentication required"], [], session, st, []⟩
  else
    let roomId := jget msg "roomId"
    let content := jget msg "content"
    if roomId == "" || content == "" then
      ⟨[.error "Room ID and content required"], [], session, st, []⟩
    else
      let message_id := "msg_" ++ toString env.millis
      let payload := OutEnvelope.new_message message_id roomId session.user_id
        (if session.display_name == "" then session.username else session.display_name)
        content env.millis "text"
      let events := broadcast_to_room reg roomId payload ""
      let saved :=
        if env.db_present then
          [⟨message_id, roomId, session.user_id, content, env.millis⟩]
        else []
      ⟨[], events, session, st, saved⟩

/-- The `"join_room"` branch of `handle_message` (websocket_server.cpp
lines 556-655): require authentication, a non-empty `room_id` field and a
database manager; consult `can_user_join_room`; on denial reply
`"Access denied to room"`; otherwise set the session's room, add the user
as a `member` participant, reply `room_joined`, then replay the room
history reversed into chronological order.  No broadcast is performed on
this path. -/
def handle_join_room (env : DbEnv) (st : StoreState)
    (session : ClientSession) (msg : Inbound) : HandleResult :=
  if !session.is_authenticated then
    ⟨[.error "Authentication required"], [], session, st, []⟩
  else
    let room_id := jget msg "room_id"
    if room_id == "" then
      ⟨[.error "Room ID required"], [], session, st, []⟩
    else if !env.db_present then
      ⟨[.error "Database not available"], [], session, st, []⟩
    else if !can_user_join_room env.join_query then
      ⟨[.error "Access denied to room"], [], session, st, []⟩
    else
      let session' := { session with room_id := room_id }
      let st' := add_participant st room_id session.user_id "member"
      let selfw := OutEnvelope.room_joined room_id "Successfully joined room" ::
        (env.history.reverse.map (history_envelope env))
      ⟨selfw, [], session', st', []⟩

/-- The `"auth"` branch of `handle_message` (websocket_server.cpp lines
407-491): require a non-empty token; on verification failure reply
`auth_error`; on success populate the session's identity fields, reply
`auth_success`, and, when the database manager is present, run
`ensure_user_in_default_room` and send the user's rooms as a
`rooms_list` envelope. -/
def handle_auth (env : DbEnv) (st : StoreState)
    (session : ClientSession) (msg : Inbound) : HandleResult :=
  let token := jget msg "token"
  if token == "" then
    ⟨[.auth_error "Token required"], [], session, st, []⟩
  else
    match env.verify_result with
    | none => ⟨[.auth_error "Invalid token"], [], session, st, []⟩
    | some (user_id, username) =>
      let sBase := { session with
        user_id := user_id, username := username, is_authenticated := true }
      let s' :=
        match env.user_details_name with
        | some (fn, ln, em) =>
            { sBase with display_name := fn ++ " " ++ ln, email := em }
        | none => sBase
      let ok := OutEnvelope.auth_success user_id username s'.display_name
      if env.db_present then
        let st' := ensure_user_in_default_room st user_id username
        let rooms := get_user_rooms st' user_id
        let lst := OutEnvelope.rooms_list
          (rooms.map (fun r => (r.id, r.name, r.rtype)))
        ⟨[ok, lst], [], s', st', []⟩
      else
        ⟨[ok], [], s', st, []⟩

/-- The dispatch of `handle_message` (websocket_server.cpp lines
399-659) on the envelope's `"type"` field; unknown types are only
logged. -/
def handle_message (env : DbEnv) (st : StoreState) (reg : Registry)
    (session : ClientSession) (msg : Inbound) : HandleResult :=
  let t := jget msg "type"
  if t == "auth" then handle_auth env st session msg
  else if t == "message" then handle_chat_message env st reg session msg
  else if t == "join_room" then handle_join_room env st session msg
  else ⟨[], [], session, st, []⟩

/-- Session id generation in `WebSocketServer::handle_session`
(websocket_server.cpp lines 749-750): `"session_"` followed by the
current time in microseconds since the epoch. -/
def make_session_id (micros : Nat) : String := "session_" ++ toString micros

/-- `active_sessions[session_id] = session` (websocket_server.cpp line
764): `std::unordered_map::operator[]` assignment, which replaces the
mapped value when the key is already present and inserts otherwise. -/
def registry_insert (reg : Registry) (sid : String) (s : ClientSession) : Registry :=
  if reg.any (fun kv => kv.fst == sid) then
    reg.map (fun kv => if kv.fst == sid then (sid, s) else kv)
  else
    reg ++ [(sid, s)]

/-- The base64 alphabet of `base64_decode` (websocket_server.cpp line
102); `b64_index` models the lookup table `T` (`none` for characters
mapped to -1, including `=`). -/
def b64_index (c : Char) : Option Nat :=
  ("ABCDEFGHIJKLMNOPQRSTUVWXYZabcdefghijklmnopqrstuvwxyz0123456789+/").toList.indexOf? c

/-- The decode loop of `base64_decode` (websocket_server.cpp lines
109-118): stop at the first character outside the alphabet; accumulate
six bits per character into the 32-bit `val` and emit a byte whenever
eight or more bits are available (`(val >> valb) & 0xFF`).  `val` wraps
as a 32-bit machine integer. -/
def base64_decode_core : List Char → Nat → Int → List Nat
  | [], _, _ => []
  | c :: rest, val, valb =>
    match b64_index c with
    | none => []
    | some t =>
      let val' := (val * 64 + t) % (2 ^ 32)
      let valb' := valb + 6
      if 0 ≤ valb' then
        (val' / 2 ^ valb'.toNat) % 256 :: base64_decode_core rest val' (valb' - 8)
      else
        base64_decode_core rest val' valb'

/-- `base64_decode` (websocket_server.cpp lines 101-121), starting with
`val = 0, valb = -8`; decoded bytes become characters of the result. -/
def base64_decode (encoded : String) : String :=
  String.mk ((base64_decode_core encoded.toList 0 (-8)).map Char.ofNat)

/-- `base64url_decode` (websocket_server.cpp lines 124-138): map the
URL-safe characters back, pad with `=` to a multiple of four, and reuse
`base64_decode` (where `=` terminates the loop). -/
def base64url_decode (input : String) : String :=
  let b64 := input.map (fun c => if c = '-' then '+' else if c = '_' then '/' else c)
  let padded := b64 ++ String.mk (List.replicate ((4 - b64.length % 4) % 4) '=')
  base64_decode padded

/-- `boost::split(parts, token, boost::is_any_of("."))` (websocket_server
.cpp line 273): split on every `'.'`, keeping empty tokens. -/
def split_dot : List Char → List Char → List String
  | [], acc => [String.mk acc.reverse]
  | c :: rest, acc =>
      if c = '.' then String.mk acc.reverse :: split_dot rest []
      else split_dot rest (c :: acc)

/-- A row of the main application's `User` table as selected by
`get_user_details_from_main_db` (websocket_server.cpp lines 230-247). -/
structure UserRow where
  id : String
  username : String
  firstName : String
  lastName : String
  email : String
  profilePic : String
  deriving Repr, DecidableEq

/-- `verify_jwt_token` (websocket_server.cpp lines 267-361).  External
collaborators are explicit: `payload_id` models parsing the decoded
payload as JSON and reading `get<std::string>("id", "")` (`none` when
`read_json` throws); `main_db` models `get_user_details_from_main_db`
(`none` when the user does not exist).  The function requires exactly
three `'.'`-separated parts, base64url-decodes the second, extracts a
non-empty `"id"`, and looks the user up; on success it returns the user's
id and its username (falling back to `firstName` when the username is
empty).  The first part (header) and third part (signature) are never
examined, and no cryptographic check is performed. -/
def verify_jwt_token (payload_id : String → Option String)
    (main_db : String → Option UserRow) (token : String) :
    Option (String × String) :=
  match split_dot token.toList [] with
  | [_header, p, _signature] =>
    (match payload_id (base64url_decode p) with
     | none => none
     | some jid =>
       if jid == "" then none
       else
         match main_db jid with
         | none => none
         | some u =>
             some (u.id, if u.username != "" then u.username else u.firstName))
  | _ => none

/-
Concrete states used by counterexamples and witnesses.
-/

/-- An authenticated session for user u1 currently in room r1. -/
def exAlice : ClientSession :=
  ⟨"u1", "alice", "Alice A", "a@x", "r1", true, true⟩

/-- An authenticated session for user u2 currently in room r1. -/
def exBob : ClientSession :=
  ⟨"u2", "bob", "Bob B", "b@x", "r1", true, true⟩

/-- exAlice before any join: authenticated, empty `room_id`. -/
def exAliceNoRoom : ClientSession :=
  ⟨"u1", "alice", "Alice A", "a@x", "", true, true⟩

/-- A freshly accepted, unauthenticated session. -/
def exFresh : ClientSession := ⟨"", "", "", "", "", false, false⟩

/-- Registry holding exAlice (id s1) and exBob (id s2), both in r1. -/
def exReg : Registry := [("s1", exAlice), ("s2", exBob)]

/-- Registry where the sender has not joined any room but u2 is in r1. -/
def exRegNoRoom : Registry := [("s1", exAliceNoRoom), ("s2", exBob)]

/-- Empty chat-database state. -/
def exStore0 : StoreState := ⟨[], [], []⟩

/-- Environment for message handling: database present, wall clock at
1000 ms. -/
def exEnvMsg : DbEnv :=
  ⟨true, none, none, QueryOutcome.ok [1], [], fun _ => ("", ""), 1000⟩

/-- Environment whose authorization query throws. -/
def exEnvExn : DbEnv :=
  ⟨true, none, none, QueryOutcome.exn "connection to server lost", [],
    fun _ => ("", ""), 1000⟩

/-- Environment for a successful auth of u1/alice. -/
def exEnvAuth : DbEnv :=
  ⟨true, some ("u1", "alice"), some ("Alice", "A", "a@x"),
    QueryOutcome.ok [], [], fun _ => ("", ""), 0⟩

/-- Chat-database state where user v1 is already a participant of the
default room with `is_active = false`, and both u1 and v1 are known
chat users. -/
def exStoreInactive : StoreState :=
  ⟨[], [⟨default_room_id, "v1", "member", false⟩],
    [("u1", "alice"), ("v1", "bob")]⟩

/-- A `message` envelope for room r1. -/
def exMsgHi : Inbound := [("type", "message"), ("roomId", "r1"), ("content", "hi")]

/-- A `join_room` envelope for room r1. -/
def exMsgJoin : Inbound := [("type", "join_room"), ("room_id", "r1")]

/-- An `auth` envelope. -/
def exMsgAuth : Inbound := [("type", "auth"), ("token", "tok")]

/-- Payload used by broadcast lock-discipline examples. -/
def exPayload : OutEnvelope :=
  OutEnvelope.new_message "msg_1000" "r1" "u1" "Alice A" "hi" 1000 "text"

/-- Two-message history as returned by the store: newest (5 ms) first. -/
def exHistory : List StoredMsg :=
  [⟨"m2", "r1", "u2", "later", 5⟩, ⟨"m1", "r1", "u1", "earlier", 3⟩]

/-- Environment for a join that replays `exHistory`. -/
def exEnvHist : DbEnv :=
  ⟨true, none, none, QueryOutcome.ok [1], exHistory, fun _ => ("", ""), 0⟩

/-- Oracle: every decoded payload parses with id u1. -/
def exPayloadId : String → Option String := fun _ => some "u1"

/-- Main-database oracle: only user u1 exists. -/
def exMainDb : String → Option UserRow := fun j =>
  if j == "u1" then some ⟨"u1", "alice", "Alice", "A", "a@x", ""⟩ else none

/-
Helper lemmas shared across claims.
-/

/-- Characterization of the write events emitted by the broadcast
loop. -/
theorem mem_broadcastWrites {reg : Registry} {rid : String} {pl : OutEnvelope}
    {excl : String} {e : NetEvent} :
    e ∈ broadcastWrites reg rid pl excl ↔
    ∃ kv ∈ reg, e = NetEvent.wsWrite kv.fst kv.snd pl ∧
      kv.snd.room_id = rid ∧ kv.snd.is_authenticated = true ∧
      kv.snd.user_id ≠ excl ∧ kv.snd.ws_open = true := by
  unfold broadcastWrites
  rw [List.mem_filterMap]
  constructor
  · rintro ⟨kv, hmem, hf⟩
    by_cases h1 : (kv.snd.room_id == rid && kv.snd.is_authenticated) = true
    · rw [if_pos h1] at hf
      by_cases h2 : (kv.snd.user_id != excl) = true
      · rw [if_pos h2] at hf
        by_cases h3 : kv.snd.ws_open = true
        · rw [if_pos h3] at hf
          simp only [Bool.and_eq_true, beq_iff_eq] at h1
          exact ⟨kv, hmem, (Option.some.inj hf).symm, h1.1, h1.2,
            bne_iff_ne.mp h2, h3⟩
        · rw [if_neg h3] at hf
          simp at hf
      · rw [if_neg h2] at hf
        simp at hf
    · rw [if_neg h1] at hf
      simp at hf
  · rintro ⟨kv, hmem, rfl, h1, h2, h3, h4⟩
    refine ⟨kv, hmem, ?_⟩
    rw [if_pos (by simp [h1, h2]), if_pos (by simpa using h3), if_pos h4]

/-- Every event in the broadcast write list is a socket write. -/
theorem broadcastWrites_are_writes {reg : Registry} {rid : String}
    {pl : OutEnvelope} {excl : String} {e : NetEvent}
    (h : e ∈ broadcastWrites reg rid pl excl) :
    ∃ sid s p, e = NetEvent.wsWrite sid s p := by
  obtain ⟨kv, _, rfl, _⟩ := mem_broadcastWrites.mp h
  exact ⟨kv.fst, kv.snd, pl, rfl⟩

/-- A run of socket writes followed by the final unlock is attributed
entirely to the locked region when the lock is already held. -/
theorem writesWhileLocked_of_writes (ws : List NetEvent)
    (h : ∀ e ∈ ws, ∃ sid s p, e = NetEvent.wsWrite sid s p) :
    writesWhileLocked (ws ++ [NetEvent.lockRelease]) 1 = ws := by
  induction ws with
  | nil => rfl
  | cons e rest ih =>
    obtain ⟨sid, s, p, rfl⟩ := h e (List.mem_cons_self _ _)
    simpa [writesWhileLocked] using
      ih (fun e he => h e (List.mem_cons_of_mem _ he))

/-- Every control path of `can_user_join_room` returns true. -/
theorem can_user_join_room_true (res : QueryOutcome Nat) :
    can_user_join_room res = true := by
  cases res with
  | ok rows => cases rows <;> rfl
  | exn m => rfl

/-- Dispatch: a `"message"` envelope reaches the message branch. -/
theorem handle_message_message (env : DbEnv) (st : StoreState) (reg : Registry)
    (session : ClientSession) (msg : Inbound)
    (htype : jget msg "type" = "message") :
    handle_message env st reg session msg =
      handle_chat_message env st reg session msg := by
  unfold handle_message
  rw [htype]
  rfl

/-- Dispatch: a `"join_room"` envelope reaches the join branch. -/
theorem handle_message_join (env : DbEnv) (st : StoreState) (reg : Registry)
    (session : ClientSession) (msg : Inbound)
    (htype : jget msg "type" = "join_room") :
    handle_message env st reg session msg =
      handle_join_room env st session msg := by
  unfold handle_message
  rw [htype]
  rfl

/-- Dispatch: an `"auth"` envelope reaches the auth branch. -/
theorem handle_message_auth (env : DbEnv) (st : StoreState) (reg : Registry)
    (session : ClientSession) (msg : Inbound)
    (htype : jget msg "type" = "auth") :
    handle_message env st reg session msg =
      handle_auth env st session msg := by
  unfold handle_message
  rw [htype]
  rfl

/-- Claim C3: for every pair (user_id, room_id), the Store's
`can_user_join_room` returns true — the participant count obtained by its
query is ignored and every control path (including the empty-result and
exception paths) returns true — so the join_room handler's
"Access denied to room" branch is unreachable and every authenticated
user can join any room id (an authenticated join with a non-empty room id
and a live database manager always sets the session's room). -/
theorem C3_confirmed :
    (∀ res : QueryOutcome Nat, can_user_join_room res = true) ∧
    (∀ (env : DbEnv) (st : StoreState) (session : ClientSession) (msg : Inbound),
      session.is_authenticated = true → jget msg "room_id" ≠ "" →
      env.db_present = true →
      OutEnvelope.error "Access denied to room" ∉
        (handle_join_room env st session msg).self_writes ∧
      (handle_join_room env st session msg).session.room_id =
        jget msg "room_id") := by
  refine ⟨can_user_join_room_true, ?_⟩
  intro env st session msg hauth hrid hdb
  have hc := can_user_join_room_true env.join_query
  constructor
  · simp [handle_join_room, hauth, hrid, hdb, hc, history_envelope]
  · simp [handle_join_room, hauth, hrid, hdb, hc]

/-- Witness for C3: a concrete authenticated join of room r1. -/
theorem C3_witness :
    OutEnvelope.error "Access denied to room" ∉
      (handle_join_room exEnvMsg exStore0 exAlice exMsgJoin).self_writes ∧
    (handle_join_room exEnvMsg exStore0 exAlice exMsgJoin).session.room_id =
      jget exMsgJoin "room_id" :=
  C3_confirmed.2 exEnvMsg exStore0 exAlice exMsgJoin (by decide) (by decide)
    (by decide)

/-- Claim C4 is false on the code: when the Store raises during the
authorization check, `can_user_join_room` catches the exception and
returns true, so the join is allowed, not denied — here a concrete
authenticated join whose authorization query throws still sets the
session's room and emits `room_joined`. -/
theorem C4_counterexample :
    can_user_join_room (QueryOutcome.exn "connection to server lost") = true ∧
    (handle_join_room exEnvExn exStore0 exAliceNoRoom exMsgJoin).session.room_id
      = "r1" ∧
    OutEnvelope.room_joined "r1" "Successfully joined room" ∈
      (handle_join_room exEnvExn exStore0 exAliceNoRoom exMsgJoin).self_writes := by
  refine ⟨rfl, ?_, ?_⟩ <;> decide

/-- Claim C4 amended: if the Store fails (raises) during join_room's
authorization check, the check reports `true` (fail-open): the join is
allowed, the session's room is set and `room_joined` is emitted. -/
theorem C4_amended :
    ∀ (e : String) (env : DbEnv) (st : StoreState) (session : ClientSession)
      (msg : Inbound),
      env.join_query = QueryOutcome.exn e →
      session.is_authenticated = true → jget msg "room_id" ≠ "" →
      env.db_present = true →
      can_user_join_room env.join_query = true ∧
      (handle_join_room env st session msg).session.room_id =
        jget msg "room_id" ∧
      OutEnvelope.room_joined (jget msg "room_id") "Successfully joined room" ∈
        (handle_join_room env st session msg).self_writes := by
  intro e env st session msg hq hauth hrid hdb
  have hc : can_user_join_room env.join_query = true := by rw [hq]; rfl
  refine ⟨hc, ?_, ?_⟩ <;> simp [handle_join_room, hauth, hrid, hdb, hc]

/-- Witness for C4 amended: the concrete throwing-query join. -/
theorem C4_witness :
    can_user_join_room exEnvExn.join_query = true ∧
    (handle_join_room exEnvExn exStore0 exAliceNoRoom exMsgJoin).session.room_id
      = jget exMsgJoin "room_id" ∧
    OutEnvelope.room_joined (jget exMsgJoin "room_id")
        "Successfully joined room" ∈
      (handle_join_room exEnvExn exStore0 exAliceNoRoom exMsgJoin).self_writes :=
  C4_amended "connection to server lost" exEnvExn exStore0 exAliceNoRoom
    exMsgJoin rfl (by decide) (by decide) (by decide)

/-- Claim C1 is false on the code at a concrete input: the sending
session s1 (user u1, in room r1, authenticated) receives its own
`new_message` envelope, because `handle_message` invokes the broadcast
with an empty exclusion id (websocket_server.cpp line 533) rather than
the sender's user id. -/
theorem C1_counterexample :
    ("s1", exAlice) ∈ exReg ∧ exAlice.user_id = "u1" ∧
    NetEvent.wsWrite "s1" exAlice
        (OutEnvelope.new_message "msg_1000" "r1" "u1" "Alice A" "hi" 1000 "text")
      ∈ (handle_message exEnvMsg exStore0 exReg exAlice exMsgHi).events := by
  decide

/-- Claim C1 amended: `broadcast_to_room(R, payload, exclude = S)` never
writes the payload to a session whose user id equals S; however, the
`message` handler invokes the broadcast with an empty exclusion id, so
the resulting `new_message` envelope is delivered to every authenticated
open session in the room whose user id is non-empty — including the
sender's own session. -/
theorem C1_amended :
    (∀ (reg : Registry) (rid : String) (pl : OutEnvelope) (excl sid : String)
        (s : ClientSession) (p : OutEnvelope),
      NetEvent.wsWrite sid s p ∈ broadcast_to_room reg rid pl excl →
      s.user_id ≠ excl) ∧
    (∀ (env : DbEnv) (st : StoreState) (reg : Registry)
        (session : ClientSession) (msg : Inbound),
      jget msg "type" = "message" → session.is_authenticated = true →
      jget msg "roomId" ≠ "" → jget msg "content" ≠ "" →
      ∀ sid s, (sid, s) ∈ reg → s.room_id = jget msg "roomId" →
        s.is_authenticated = true → s.ws_open = true → s.user_id ≠ "" →
        NetEvent.wsWrite sid s
            (OutEnvelope.new_message ("msg_" ++ toString env.millis)
              (jget msg "roomId") session.user_id
              (if session.display_name == "" then session.username
               else session.display_name)
              (jget msg "content") env.millis "text")
          ∈ (handle_message env st reg session msg).events) := by
  constructor
  · intro reg rid pl excl sid s p hmem
    rcases List.mem_cons.mp hmem with h | h
    · exact absurd h (by simp)
    rcases List.mem_append.mp h with h | h
    · obtain ⟨kv, _, heq, _, _, hne, _⟩ := mem_broadcastWrites.mp h
      cases heq
      exact hne
    · simp at h
  · intro env st reg session msg htype hauth hrid hcontent sid s hmem hroom
      hsauth hopen hne
    rw [handle_message_message env st reg session msg htype]
    have hr : (jget msg "roomId" == "") = false := by
      simpa using hrid
    have hc : (jget msg "content" == "") = false := by
      simpa using hcontent
    simp only [handle_chat_message, hauth, Bool.not_true, Bool.false_eq_true,
      if_false, hr, hc, Bool.or_self, Bool.false_or, Bool.or_false]
    refine List.mem_cons_of_mem _ (List.mem_append_left _ ?_)
    exact mem_broadcastWrites.mpr ⟨(sid, s), hmem, rfl, hroom, hsauth, hne, hopen⟩

/-- Witness for C1 amended: on the concrete two-session registry, the
write delivered to s2 is not to the excluded user u1, and the sender's
own session s1 receives the broadcast `new_message`. -/
theorem C1_witness :
    exBob.user_id ≠ "u1" ∧
    NetEvent.wsWrite "s1" exAlice
        (OutEnvelope.new_message ("msg_" ++ toString exEnvMsg.millis)
          (jget exMsgHi "roomId") exAlice.user_id
          (if exAlice.display_name == "" then exAlice.username
           else exAlice.display_name)
          (jget exMsgHi "content") exEnvMsg.millis "text")
      ∈ (handle_message exEnvMsg exStore0 exReg exAlice exMsgHi).events :=
  ⟨C1_amended.1 exReg "r1" exPayload "u1" "s2" exBob exPayload (by decide),
   C1_amended.2 exEnvMsg exStore0 exReg exAlice exMsgHi (by decide) (by decide)
     (by decide) (by decide) "s1" exAlice (by decide) (by decide) (by decide)
     (by decide) (by decide)⟩

/-- Claim C2 is false on the code at a concrete input: an authenticated
session whose session-level room_id is empty (no join_room has succeeded)
sends a `message` envelope naming room r1; the handler emits no error and
broadcasts the message to r1 (u2's session receives it) — the session's
own room_id is never consulted, and no "must join a room first" rejection
exists. -/
theorem C2_counterexample :
    exAliceNoRoom.is_authenticated = true ∧ exAliceNoRoom.room_id = "" ∧
    (handle_message exEnvMsg exStore0 exRegNoRoom exAliceNoRoom
        exMsgHi).self_writes = [] ∧
    NetEvent.wsWrite "s2" exBob
        (OutEnvelope.new_message "msg_1000" "r1" "u1" "Alice A" "hi" 1000 "text")
      ∈ (handle_message exEnvMsg exStore0 exRegNoRoom exAliceNoRoom
          exMsgHi).events := by
  decide

/-- Claim C2 amended: a `message` envelope is rejected with an `error`
envelope and causes no broadcast and no state change unless the session
is authenticated; beyond authentication only the envelope's own `roomId`
and `content` fields are required to be non-empty — the session-level
room_id is not consulted — and the rejection reasons distinguish
"Authentication required" from "Room ID and content required". -/
theorem C2_amended :
    ∀ (env : DbEnv) (st : StoreState) (reg : Registry)
      (session : ClientSession) (msg : Inbound),
      jget msg "type" = "message" →
      ((session.is_authenticated = false →
        handle_message env st reg session msg =
          ⟨[OutEnvelope.error "Authentication required"], [], session, st, []⟩) ∧
       (session.is_authenticated = true →
        (jget msg "roomId" = "" ∨ jget msg "content" = "") →
        handle_message env st reg session msg =
          ⟨[OutEnvelope.error "Room ID and content required"], [],
            session, st, []⟩)) := by
  intro env st reg session msg htype
  rw [handle_message_message env st reg session msg htype]
  constructor
  · intro hna
    simp [handle_chat_message, hna]
  · intro ha hfield
    rcases hfield with h | h <;> simp [handle_chat_message, ha, h]

/-- Witness for C2 amended: a fresh unauthenticated session's `message`
is answered with "Authentication required" and nothing else happens. -/
theorem C2_witness :
    handle_message exEnvMsg exStore0 exReg exFresh exMsgHi =
      ⟨[OutEnvelope.error "Authentication required"], [], exFresh,
        exStore0, []⟩ :=
  (C2_amended exEnvMsg exStore0 exReg exFresh exMsgHi (by decide)).1 (by decide)

/-- Claim C5 is false on the code: `broadcast_to_room` acquires the
registry-wide sessions mutex and performs the recipient writes while
holding it — on a concrete registry, the set of writes performed while
the lock is held is non-empty (the write to s2 happens under the
lock). -/
theorem C5_counterexample :
    writesWhileLocked (broadcast_to_room exReg "r1" exPayload "u1") 0 =
      [NetEvent.wsWrite "s2" exBob exPayload] := by
  decide

/-- Claim C5 amended: `broadcast_to_room` takes no unlocked snapshot; it
acquires the sessions mutex, performs every recipient write inside the
locked region, and releases the mutex only after the loop — every write
of the trace is attributed to the locked region. -/
theorem C5_amended :
    ∀ (reg : Registry) (rid : String) (pl : OutEnvelope) (excl : String),
      broadcast_to_room reg rid pl excl =
        NetEvent.lockAcquire ::
          (broadcastWrites reg rid pl excl ++ [NetEvent.lockRelease]) ∧
      writesWhileLocked (broadcast_to_room reg rid pl excl) 0 =
        broadcastWrites reg rid pl excl := by
  intro reg rid pl excl
  refine ⟨rfl, ?_⟩
  exact writesWhileLocked_of_writes _ (fun e he => broadcastWrites_are_writes he)

/-- Claim C6 is false on the code at a concrete input: two distinct
sessions accepted during the same microsecond (timestamp 1000) receive
the same generated session id, and registering the second silently
replaces the first — the first session's entry is gone from the
registry. -/
theorem C6_counterexample :
    exAlice ≠ exBob ∧
    (make_session_id 1000, exAlice) ∉
      registry_insert (registry_insert [] (make_session_id 1000) exAlice)
        (make_session_id 1000) exBob ∧
    registry_insert (registry_insert [] (make_session_id 1000) exAlice)
        (make_session_id 1000) exBob = [(make_session_id 1000, exBob)] := by
  decide

/-- Claim C6 amended: session ids are the accept timestamp in
microseconds, so two sessions accepted in the same microsecond receive
the same id and the second registration silently replaces the first; the
registry itself never holds two entries for one id — registration under
an id absent from the registry appends without touching existing
entries, and registration preserves key-uniqueness. -/
theorem C6_amended :
    (∀ (t : Nat) (sA sB : ClientSession),
      registry_insert (registry_insert [] (make_session_id t) sA)
        (make_session_id t) sB = [(make_session_id t, sB)]) ∧
    (∀ (reg : Registry) (sid : String) (s : ClientSession),
      (∀ kv ∈ reg, kv.fst ≠ sid) →
      registry_insert reg sid s = reg ++ [(sid, s)]) ∧
    (∀ (reg : Registry) (sid : String) (s : ClientSession),
      (reg.map Prod.fst).Nodup →
      ((registry_insert reg sid s).map Prod.fst).Nodup) := by
  refine ⟨?_, ?_, ?_⟩
  · intro t sA sB
    simp [registry_insert]
  · intro reg sid s hfresh
    have hany : ¬(reg.any (fun kv => kv.fst == sid) = true) := by
      intro hc
      obtain ⟨kv, hkv, hbeq⟩ := List.any_eq_true.mp hc
      exact hfresh kv hkv (by simpa using hbeq)
    unfold registry_insert
    rw [if_neg hany]
  · intro reg sid s hnd
    unfold registry_insert
    by_cases hany : reg.any (fun kv => kv.fst == sid) = true
    · rw [if_pos hany]
      have hkeys : (reg.map (fun kv => if kv.fst == sid then (sid, s)
          else kv)).map Prod.fst = reg.map Prod.fst := by
        rw [List.map_map]
        apply List.map_congr_left
        intro kv _
        by_cases hk : (kv.fst == sid) = true
        · have hks : kv.fst = sid := by simpa using hk
          simp [Function.comp, hk, hks]
        · simp [Function.comp, hk]
      rw [hkeys]
      exact hnd
    · rw [if_neg hany]
      rw [List.map_append, List.nodup_append]
      refine ⟨hnd, List.nodup_singleton _, ?_⟩
      intro a ha hb
      have hb' : a = sid := by simpa using hb
      subst hb'
      obtain ⟨kv, hkv, hfst⟩ := List.mem_map.mp ha
      exact hany (List.any_eq_true.mpr ⟨kv, hkv, by simp [hfst]⟩)

/-- Witness for C6 amended: registering a fresh id s9 appends and keeps
the key list duplicate-free. -/
theorem C6_witness :
    registry_insert [("s1", exAlice)] "s9" exBob =
      [("s1", exAlice), ("s9", exBob)] ∧
    ((registry_insert [("s1", exAlice)] "s9" exBob).map Prod.fst).Nodup :=
  ⟨C6_amended.2.1 [("s1", exAlice)] "s9" exBob (by decide),
   C6_amended.2.2 [("s1", exAlice)] "s9" exBob (by decide)⟩

/-- The join branch performs no broadcast on any of its paths. -/
theorem handle_join_room_events (env : DbEnv) (st : StoreState)
    (session : ClientSession) (msg : Inbound) :
    (handle_join_room env st session msg).events = [] := by
  unfold handle_join_room
  cases h1 : session.is_authenticated with
  | false => simp [h1]
  | true =>
    cases h2 : (jget msg "room_id" == "") with
    | true => simp [h1, h2]
    | false =>
      cases h3 : env.db_present with
      | false => simp [h1, h2, h3]
      | true =>
        cases h4 : can_user_join_room env.join_query with
        | false => simp [h1, h2, h3, h4]
        | true => simp [h1, h2, h3, h4]

/-- No path of the join branch ever writes a `user_joined` envelope. -/
theorem handle_join_room_no_user_joined (env : DbEnv) (st : StoreState)
    (session : ClientSession) (msg : Inbound) (rid uid un dn : String) :
    OutEnvelope.user_joined rid uid un dn ∉
      (handle_join_room env st session msg).self_writes := by
  unfold handle_join_room
  cases h1 : session.is_authenticated with
  | false => simp [h1]
  | true =>
    cases h2 : (jget msg "room_id" == "") with
    | true => simp [h1, h2]
    | false =>
      cases h3 : env.db_present with
      | false => simp [h1, h2, h3]
      | true =>
        cases h4 : can_user_join_room env.join_query with
        | false => simp [h1, h2, h3, h4]
        | true => simp [h1, h2, h3, h4, history_envelope]

/-- Claim C7 is false on the code at a concrete input: user u1 joins
room r1 while u2's authenticated session sits in r1, the join succeeds
(the only self-write is `room_joined`), yet the broadcast trace is empty
— no `user_joined` notification is sent to the rest of the room. -/
theorem C7_counterexample :
    ("s2", exBob) ∈ exReg ∧ exBob.room_id = "r1" ∧
    (handle_message exEnvMsg exStore0 exReg exAliceNoRoom
        exMsgJoin).self_writes =
      [OutEnvelope.room_joined "r1" "Successfully joined room"] ∧
    (handle_message exEnvMsg exStore0 exReg exAliceNoRoom exMsgJoin).events
      = [] := by
  decide

/-- Claim C7 amended: a successful join_room broadcasts nothing — the
join branch performs no broadcast at all and never emits a `user_joined`
envelope; on success the joining session alone receives `room_joined`
followed by the history replay. -/
theorem C7_amended :
    ∀ (env : DbEnv) (st : StoreState) (session : ClientSession)
      (msg : Inbound),
      (handle_join_room env st session msg).events = [] ∧
      (∀ rid uid un dn, OutEnvelope.user_joined rid uid un dn ∉
        (handle_join_room env st session msg).self_writes) ∧
      (session.is_authenticated = true → jget msg "room_id" ≠ "" →
        env.db_present = true →
        (handle_join_room env st session msg).self_writes =
          OutEnvelope.room_joined (jget msg "room_id")
              "Successfully joined room"
            :: env.history.reverse.map (history_envelope env)) := by
  intro env st session msg
  refine ⟨handle_join_room_events env st session msg,
    fun rid uid un dn =>
      handle_join_room_no_user_joined env st session msg rid uid un dn, ?_⟩
  intro hauth hrid hdb
  simp [handle_join_room, hauth, hrid, hdb, can_user_join_room_true]

/-- Witness for C7 amended: concrete successful join of r1. -/
theorem C7_witness :
    (handle_join_room exEnvMsg exStore0 exAliceNoRoom exMsgJoin).self_writes =
      OutEnvelope.room_joined (jget exMsgJoin "room_id")
          "Successfully joined room"
        :: exEnvMsg.history.reverse.map (history_envelope exEnvMsg) :=
  (C7_amended exEnvMsg exStore0 exAliceNoRoom exMsgJoin).2.2 (by decide)
    (by decide) (by decide)

/-- Claim C8: the room history replayed after a successful join_room is
ordered oldest to newest — given that the store returns the rows in
descending `created_at` order, the sequence of `new_message` envelopes
written to the joining session is the reverse of that list, ascending by
creation time. -/
theorem C8_confirmed :
    ∀ (env : DbEnv) (st : StoreState) (session : ClientSession)
      (msg : Inbound),
      session.is_authenticated = true → jget msg "room_id" ≠ "" →
      env.db_present = true →
      List.Pairwise (fun a b => b.created_at ≤ a.created_at) env.history →
      (handle_join_room env st session msg).self_writes =
        OutEnvelope.room_joined (jget msg "room_id")
            "Successfully joined room"
          :: env.history.reverse.map (history_envelope env) ∧
      List.Pairwise (fun a b => a.created_at ≤ b.created_at)
        env.history.reverse := by
  intro env st session msg hauth hrid hdb hsorted
  constructor
  · simp [handle_join_room, hauth, hrid, hdb, can_user_join_room_true]
  · rw [List.pairwise_reverse]
    exact hsorted

/-- Witness for C8: the two-message history (created at 5 ms then 3 ms)
is replayed as 3 ms then 5 ms. -/
theorem C8_witness :
    (handle_join_room exEnvHist exStore0 exAlice exMsgJoin).self_writes =
      OutEnvelope.room_joined (jget exMsgJoin "room_id")
          "Successfully joined room"
        :: exEnvHist.history.reverse.map (history_envelope exEnvHist) ∧
    List.Pairwise (fun a b => a.created_at ≤ b.created_at)
      exEnvHist.history.reverse :=
  C8_confirmed exEnvHist exStore0 exAlice exMsgJoin (by decide) (by decide)
    (by decide) (by decide)

/-- Claim C9: `verify_jwt_token` performs no cryptographic signature
check — for a token whose `'.'`-split has exactly three parts, the result
is a function of the base64url-decoded second part alone (parse the
decoded payload, require a non-empty `"id"`, require the user to exist in
the main database); the third part is never examined, and any other
number of parts fails. -/
theorem C9_confirmed :
    ∀ (payload_id : String → Option String)
      (main_db : String → Option UserRow) (token : String),
      (∀ h p s, split_dot token.toList [] = [h, p, s] →
        verify_jwt_token payload_id main_db token =
          match payload_id (base64url_decode p) with
          | none => none
          | some jid =>
            if jid == "" then none
            else
              match main_db jid with
              | none => none
              | some u =>
                  some (u.id, if u.username != "" then u.username
                    else u.firstName)) ∧
      ((split_dot token.toList []).length ≠ 3 →
        verify_jwt_token payload_id main_db token = none) := by
  intro payload_id main_db token
  constructor
  · intro h p s hsplit
    unfold verify_jwt_token
    rw [hsplit]
  · intro hlen
    unfold verify_jwt_token
    cases hspl : split_dot token.toList [] with
    | nil => rfl
    | cons a t1 =>
      cases t1 with
      | nil => rfl
      | cons b t2 =>
        cases t2 with
        | nil => rfl
        | cons c t3 =>
          cases t3 with
          | nil =>
            rw [hspl] at hlen
            simp at hlen
          | cons d t4 => rfl

/-- Witness for C9: the token "h.p.s" splits into three parts and, with a
payload oracle yielding id u1 and a main database containing u1/alice,
verification succeeds as (u1, alice) without looking at "s". -/
theorem C9_witness :
    split_dot ("h.p.s").toList [] = ["h", "p", "s"] ∧
    verify_jwt_token exPayloadId exMainDb "h.p.s" = some ("u1", "alice") :=
  ⟨by decide,
   ((C9_confirmed exPayloadId exMainDb "h.p.s").1 "h" "p" "s"
      (by decide)).trans (by rfl)⟩

/-- The room-creation stage leaves users and participants unchanged. -/
theorem ensureRoomStage_users (st : StoreState) (uid : String) :
    (ensureRoomStage st uid).chat_users = st.chat_users := by
  unfold ensureRoomStage
  split <;> rfl

/-- The room-creation stage leaves participants unchanged. -/
theorem ensureRoomStage_parts (st : StoreState) (uid : String) :
    (ensureRoomStage st uid).room_participants = st.room_participants := by
  unfold ensureRoomStage
  split <;> rfl

/-- After the room-creation stage the default room exists. -/
theorem ensureRoomStage_any (st : StoreState) (uid : String) :
    (ensureRoomStage st uid).chat_rooms.any
      (fun r => r.id == default_room_id) = true := by
  unfold ensureRoomStage
  by_cases h : st.chat_rooms.any (fun r => r.id == default_room_id) = true
  · rw [if_pos h]
    exact h
  · rw [if_neg h]
    simp

/-- When the default room was absent, the stage appends exactly the
General Chat row. -/
theorem ensureRoomStage_new (st : StoreState) (uid : String)
    (h : st.chat_rooms.any (fun r => r.id == default_room_id) = false) :
    (⟨default_room_id, "General Chat", "group", uid, true⟩ : RoomRow) ∈
      (ensureRoomStage st uid).chat_rooms := by
  unfold ensureRoomStage
  rw [if_neg (by simp [h])]
  simp

/-- The participant insert leaves the room table unchanged. -/
theorem addDefaultParticipant_rooms (st : StoreState) (uid : String) :
    (addDefaultParticipant st uid).chat_rooms = st.chat_rooms := by
  unfold addDefaultParticipant
  split <;> rfl

/-- The participant insert leaves the user table unchanged. -/
theorem addDefaultParticipant_users (st : StoreState) (uid : String) :
    (addDefaultParticipant st uid).chat_users = st.chat_users := by
  unfold addDefaultParticipant
  split <;> rfl

/-- The participant insert never removes a row. -/
theorem addDefaultParticipant_mem (st : StoreState) (uid : String)
    {p : ParticipantRow} (hp : p ∈ st.room_participants) :
    p ∈ (addDefaultParticipant st uid).room_participants := by
  unfold addDefaultParticipant
  split
  · exact hp
  · exact List.mem_append_left _ hp

/-- After the participant insert, a row for (default room, uid)
exists. -/
theorem addDefaultParticipant_covers (st : StoreState) (uid : String) :
    ∃ p ∈ (addDefaultParticipant st uid).room_participants,
      p.room_id = default_room_id ∧ p.user_id = uid := by
  unfold addDefaultParticipant
  by_cases hc : st.room_participants.any (fun p =>
      p.room_id == default_room_id && p.user_id == uid) = true
  · rw [if_pos hc]
    obtain ⟨p, hp, hcond⟩ := List.any_eq_true.mp hc
    simp only [Bool.and_eq_true, beq_iff_eq] at hcond
    exact ⟨p, hp, hcond.1, hcond.2⟩
  · rw [if_neg hc]
    exact ⟨⟨default_room_id, uid, "member", true⟩, by simp, rfl, rfl⟩

/-- Any row present after the participant insert was either already there
or is a freshly inserted active member row of the default room. -/
theorem addDefaultParticipant_new (st : StoreState) (uid : String) :
    ∀ p ∈ (addDefaultParticipant st uid).room_participants,
      p ∈ st.room_participants ∨
        (p.room_id = default_room_id ∧ p.role = "member" ∧
          p.is_active = true) := by
  intro p hp
  unfold addDefaultParticipant at hp
  by_cases hc : st.room_participants.any (fun q =>
      q.room_id == default_room_id && q.user_id == uid) = true
  · rw [if_pos hc] at hp
    exact Or.inl hp
  · rw [if_neg hc] at hp
    rcases List.mem_append.mp hp with h | h
    · exact Or.inl h
    · have hrow : p = ⟨default_room_id, uid, "member", true⟩ := by simpa using h
      subst hrow
      exact Or.inr ⟨rfl, rfl, rfl⟩

/-- The per-user loop leaves the room table unchanged. -/
theorem ensure_foldl_rooms (users : List (String × String)) (acc : StoreState) :
    (users.foldl ensureOtherStep acc).chat_rooms = acc.chat_rooms := by
  induction users generalizing acc with
  | nil => rfl
  | cons v rest ih =>
    rw [List.foldl_cons, ih]
    exact addDefaultParticipant_rooms acc v.fst

/-- The per-user loop never removes a participant row. -/
theorem ensure_foldl_mem (users : List (String × String)) (acc : StoreState)
    {p : ParticipantRow} (hp : p ∈ acc.room_participants) :
    p ∈ (users.foldl ensureOtherStep acc).room_participants := by
  induction users generalizing acc with
  | nil => exact hp
  | cons v rest ih =>
    exact ih _ (addDefaultParticipant_mem acc v.fst hp)

/-- After the per-user loop, every processed user has a participant row
for the default room. -/
theorem ensure_foldl_covers (users : List (String × String)) (acc : StoreState) :
    ∀ u ∈ users,
      ∃ p ∈ (users.foldl ensureOtherStep acc).room_participants,
        p.room_id = default_room_id ∧ p.user_id = u.fst := by
  induction users generalizing acc with
  | nil =>
    intro u hu
    cases hu
  | cons v rest ih =>
    intro u hu
    rcases List.mem_cons.mp hu with rfl | hu
    · obtain ⟨p, hp, h1, h2⟩ := addDefaultParticipant_covers acc u.fst
      exact ⟨p, ensure_foldl_mem rest _ hp, h1, h2⟩
    · exact ih _ u hu

/-- Any row present after the per-user loop was already there or is a
freshly inserted active member row of the default room. -/
theorem ensure_foldl_new (users : List (String × String)) (acc : StoreState) :
    ∀ p ∈ (users.foldl ensureOtherStep acc).room_participants,
      p ∈ acc.room_participants ∨
        (p.room_id = default_room_id ∧ p.role = "member" ∧
          p.is_active = true) := by
  induction users generalizing acc with
  | nil =>
    intro p hp
    exact Or.inl hp
  | cons v rest ih =>
    intro p hp
    rcases ih (ensureOtherStep acc v) p hp with h | h
    · exact addDefaultParticipant_new acc v.fst p h
    · exact Or.inr h

/-- On the successful-verification, database-present path, the auth
branch commits `ensure_user_in_default_room` and sends the resulting
`rooms_list`. -/
theorem handle_auth_success (env : DbEnv) (st : StoreState)
    (session : ClientSession) (msg : Inbound) (uid uname : String)
    (htok : jget msg "token" ≠ "")
    (hv : env.verify_result = some (uid, uname))
    (hdb : env.db_present = true) :
    (handle_auth env st session msg).store =
      ensure_user_in_default_room st uid uname ∧
    OutEnvelope.rooms_list
        ((get_user_rooms (ensure_user_in_default_room st uid uname) uid).map
          (fun r => (r.id, r.name, r.rtype))) ∈
      (handle_auth env st session msg).self_writes := by
  unfold handle_auth
  rw [hv]
  have htok' : (jget msg "token" == "") = false := by simpa using htok
  simp [htok', hdb]

/-- Claim C10 is false on the code at a concrete input: user v1 is a
known chat user distinct from the authenticating user u1 and already has
an inactive participant row for the default room; after u1's successful
auth the row is left untouched (the check-then-insert skips existing
rows), so v1 is not an active participant — the auth side effect does not
add every other known chat user as an active participant. -/
theorem C10_counterexample :
    ("v1", "bob") ∈ exStoreInactive.chat_users ∧
    (handle_message exEnvAuth exStoreInactive [] exFresh
          exMsgAuth).store.room_participants.any
        (fun p => p.room_id == default_room_id && p.user_id == "v1"
          && p.is_active) = false ∧
    (⟨default_room_id, "v1", "member", false⟩ : ParticipantRow) ∈
      (handle_message exEnvAuth exStoreInactive [] exFresh
        exMsgAuth).store.room_participants ∧
    (handle_message exEnvAuth exStoreInactive [] exFresh
        exMsgAuth).store.chat_rooms.any
      (fun r => r.id == default_room_id) = true := by
  decide

/-- Claim C10 amended: every successful auth with the database manager
available ensures the default room (id
550e8400-e29b-41d4-a716-446655440000, "General Chat") exists, ensures
the authenticating user and every other known chat user have a
participant row in it — rows that are missing are inserted with role
"member" and is_active = true, while pre-existing rows (including
inactive ones) are left unchanged — and then sends the authenticating
client a `rooms_list` envelope of their rooms. -/
theorem C10_amended :
    ∀ (env : DbEnv) (st : StoreState) (reg : Registry)
      (session : ClientSession) (msg : Inbound) (uid uname : String),
      jget msg "type" = "auth" → jget msg "token" ≠ "" →
      env.verify_result = some (uid, uname) → env.db_present = true →
      ((handle_message env st reg session msg).store.chat_rooms.any
          (fun r => r.id == default_room_id) = true) ∧
      (st.chat_rooms.any (fun r => r.id == default_room_id) = false →
        (⟨default_room_id, "General Chat", "group", uid, true⟩ : RoomRow) ∈
          (handle_message env st reg session msg).store.chat_rooms) ∧
      (∃ p ∈ (handle_message env st reg session msg).store.room_participants,
        p.room_id = default_room_id ∧ p.user_id = uid) ∧
      (∀ v ∈ st.chat_users, v.fst ≠ uid →
        ∃ p ∈ (handle_message env st reg session
            msg).store.room_participants,
          p.room_id = default_room_id ∧ p.user_id = v.fst) ∧
      (∀ p ∈ st.room_participants,
        p ∈ (handle_message env st reg session msg).store.room_participants) ∧
      (∀ p ∈ (handle_message env st reg session msg).store.room_participants,
        p ∈ st.room_participants ∨
          (p.room_id = default_room_id ∧ p.role = "member" ∧
            p.is_active = true)) ∧
      (∃ l, OutEnvelope.rooms_list l ∈
        (handle_message env st reg session msg).self_writes) := by
  intro env st reg session msg uid uname htype htok hv hdb
  rw [handle_message_auth env st reg session msg htype]
  obtain ⟨hstore, hlst⟩ :=
    handle_auth_success env st session msg uid uname htok hv hdb
  rw [hstore]
  have hrooms : (ensure_user_in_default_room st uid uname).chat_rooms =
      (ensureRoomStage st uid).chat_rooms := by
    unfold ensure_user_in_default_room
    rw [ensure_foldl_rooms, addDefaultParticipant_rooms]
  refine ⟨?_, ?_, ?_, ?_, ?_, ?_, ⟨_, hlst⟩⟩
  · rw [hrooms]
    exact ensureRoomStage_any st uid
  · intro habs
    rw [hrooms]
    exact ensureRoomStage_new st uid habs
  · obtain ⟨p, hp, h1, h2⟩ :=
      addDefaultParticipant_covers (ensureRoomStage st uid) uid
    exact ⟨p, ensure_foldl_mem _ _ hp, h1, h2⟩
  · intro v hv' hne
    have hvmem : v ∈ (addDefaultParticipant (ensureRoomStage st uid)
        uid).chat_users.filter (fun u => u.fst != uid) := by
      rw [List.mem_filter, addDefaultParticipant_users, ensureRoomStage_users]
      exact ⟨hv', by simpa using hne⟩
    exact ensure_foldl_covers _ _ v hvmem
  · intro p hp
    apply ensure_foldl_mem
    apply addDefaultParticipant_mem
    rw [ensureRoomStage_parts]
    exact hp
  · intro p hp
    rcases ensure_foldl_new _ _ p hp with h | h
    · rcases addDefaultParticipant_new _ _ p h with h' | h'
      · rw [ensureRoomStage_parts] at h'
        exact Or.inl h'
      · exact Or.inr h'
    · exact Or.inr h

/-- Witness for C10 amended: u1's concrete auth against the store where
v1 has an inactive row — the default room exists afterwards, u1 has a
row, v1 has a row, and a rooms_list envelope is sent. -/
theorem C10_witness :
    ((handle_message exEnvAuth exStoreInactive [] exFresh
        exMsgAuth).store.chat_rooms.any
      (fun r => r.id == default_room_id) = true) ∧
    (∃ p ∈ (handle_message exEnvAuth exStoreInactive [] exFresh
        exMsgAuth).store.room_participants,
      p.room_id = default_room_id ∧ p.user_id = "u1") ∧
    (∃ l, OutEnvelope.rooms_list l ∈
      (handle_message exEnvAuth exStoreInactive [] exFresh
        exMsgAuth).self_writes) :=
  ⟨(C10_amended exEnvAuth exStoreInactive [] exFresh exMsgAuth "u1" "alice"
      (by decide) (by decide) rfl rfl).1,
   (C10_amended exEnvAuth exStoreInactive [] exFresh exMsgAuth "u1" "alice"
      (by decide) (by decide) rfl rfl).2.2.1,
   (C10_amended exEnvAuth exStoreInactive [] exFresh exMsgAuth "u1" "alice"
      (by decide) (by decide) rfl rfl).2.2.2.2.2.2⟩

end Caffis
